import Mathlib

/-!
Shallow embedding of the pleeplee robot-localization core
(`src/pleeplee/geometry.py` and `src/pleeplee/compute.py`).

Python floats are modelled as real numbers; `round(x, p)` is modelled by
`roundP p x`.  Fallible code (raised exceptions such as `ValueError`,
`ZeroDivisionError`) is modelled with `Option`: `none` marks the raise.
Mutation of a `Data` object is modelled by returning the updated record
(explicit state passing).
-/

namespace Pleeplee

/-- Python rounding `round(x, p)`: round to `p` decimal places.
Modelled with Mathlib's `round` (round-half-up; Python uses banker's
rounding, which agrees away from exact half-way values). -/
noncomputable def roundP (p : ℕ) (x : ℝ) : ℝ :=
  ((round (x * 10 ^ p) : ℤ) : ℝ) / 10 ^ p

/-- Precision constant of `geometry.py` (`PRECISION = 3`). -/
def GPRECISION : ℕ := 3

/-- Precision constant of `compute.py` (`PRECISION = 4`). -/
def CPRECISION : ℕ := 4

/-- Planar point (`geometry.Point`). -/
structure Point where
  X : ℝ
  Y : ℝ

/-- Similarity threshold `Point._threshold = 0.1`. -/
def pointThreshold : ℝ := 0.1

/-- Method `Point.distance`: Euclidean distance rounded to 3 decimal places. -/
noncomputable def Point.distance (p q : Point) : ℝ :=
  roundP GPRECISION (Real.sqrt ((p.X - q.X) ^ 2 + (p.Y - q.Y) ^ 2))

/-- Approximate equality `Point.__eq__`: both coordinate differences below the threshold. -/
def Point.approxEq (p q : Point) : Prop :=
  |p.X - q.X| < pointThreshold ∧ |p.Y - q.Y| < pointThreshold

/-- Method `Point.minus`: returns a plain pair, as the source returns a tuple. -/
def Point.minus (p q : Point) : ℝ × ℝ :=
  (p.X - q.X, p.Y - q.Y)

/-- Modelled from the spec: the landmark color identifiers (`utils.Color`
is not part of the provided sources; the spec describes color as a unique
identifier and its scenarios use red/green/blue/yellow). -/
inductive Color where
  | red | green | blue | yellow
deriving DecidableEq

/-- Landmark class `compute.LED`: a colored landmark. -/
structure LED where
  color : Color
  point : Point
  inPerimeter : Bool := true
  height : ℝ := 0

/-- Record `geometry.Triangle`. -/
structure Triangle where
  angleP : ℝ
  point : Point
  color : Color
  offset : ℝ := 0

/-- Conversion `math.radians`. -/
noncomputable def radians (x : ℝ) : ℝ := x * Real.pi / 180

/-- Conversion `math.degrees`. -/
noncomputable def degrees (x : ℝ) : ℝ := x * 180 / Real.pi

/-- Function `geometry.rotateAngle`: counter-clockwise 45 degree offset with
wraparound. -/
noncomputable def rotateAngle (alpha : ℝ) : ℝ :=
  if alpha + 45 > 180 then alpha - 360 + 45 else alpha + 45

/-- Function `geometry.rotateVector`: clockwise rotation by `alpha` degrees, each
coordinate rounded to 3 decimal places. -/
noncomputable def rotateVector (vect : ℝ × ℝ) (alpha : ℝ) : ℝ × ℝ :=
  (roundP GPRECISION (vect.1 * Real.cos (radians alpha) + vect.2 * Real.sin (radians alpha)),
   roundP GPRECISION (vect.2 * Real.cos (radians alpha) - vect.1 * Real.sin (radians alpha)))

/-- Python `math.atan2 y x`, modelled as the argument of the complex number
`x + y*i` (range `(-pi, pi]`, `atan2 0 0 = 0`, matching Python). -/
noncomputable def atan2 (y x : ℝ) : ℝ := Complex.arg ⟨x, y⟩

/-- Function `geometry.angleBetween2Vects`. -/
noncomputable def angleBetween2Vects (vect1 vect2 : ℝ × ℝ) : ℝ :=
  roundP GPRECISION (degrees (atan2 vect2.2 vect2.1 - atan2 vect1.2 vect1.1))

open Classical in
/-- Predicate `compute.hasManyOccurencies`: the fraction (in percent) of points of
`listx` that compare equal (`Point.__eq__`) to `elt` is at least the 80%
threshold. -/
noncomputable def hasManyOccurencies (elt : Point) (listx : List Point) : Prop :=
  ((listx.countP fun i => decide (elt.approxEq i)) * 100 : ℝ) / listx.length ≥ 80

open Classical in
/-- Consensus resolver `compute.sortData`: keep the points that clear the 80% frequency bar
and average them.  When no point survives the source divides by zero
(`ZeroDivisionError`), modelled by `none`. -/
noncomputable def sortData (data_array : List Point) : Option Point :=
  let filtered := data_array.filter fun x => decide (hasManyOccurencies x data_array)
  if filtered.length = 0 then none
  else some ⟨(filtered.map Point.X).sum / filtered.length,
             (filtered.map Point.Y).sum / filtered.length⟩

/-- Definition following the claim's words (for comparison with
`sortData`): approximate equality of candidate points as plain Euclidean
distance `< 0.1`. -/
noncomputable def euclidApproxEq (p q : Point) : Prop :=
  Real.sqrt ((p.X - q.X) ^ 2 + (p.Y - q.Y) ^ 2) < 0.1

open Classical in
/-- Definition following the claim's words (for comparison with
`sortData`): retain the points whose Euclidean approximate-equality
frequency is at least 80%, and average the retained points. -/
noncomputable def resolveClaim (data_array : List Point) : Option Point :=
  let retained := data_array.filter fun x =>
    decide ((((data_array.countP fun i => decide (euclidApproxEq x i)) * 100 : ℝ) /
      data_array.length) ≥ 80)
  if retained.length = 0 then none
  else some ⟨(retained.map Point.X).sum / retained.length,
             (retained.map Point.Y).sum / retained.length⟩

/-- Lookup `compute._getLED`: first landmark of the given color in the
perimeter list; the source raises `ValueError('Color not found')` when
none exists, modelled by `none`. -/
def getLED (color : Color) (perimeter : List LED) : Option LED :=
  perimeter.find? fun i => decide (i.color = color)

/-- Sighting class `compute.Data`: one camera observation.  `led` is `Option` because
`Data.__init__` catches the lookup failure and continues without ever
assigning the attribute (`none` models the missing attribute). -/
structure Data where
  id : ℕ
  angle : ℝ
  distance : Option ℝ
  led : Option LED

/-- Constructor `Data.__init__`.  The global instance counter `next(self._ids)` is
passed explicitly as `idv`.  On an unknown color the source catches the
`ValueError` from `_getLED`, prints a message, and continues: the
constructed object is returned with `led` unset. -/
def Data.init (idv : ℕ) (color : Color) (angle angleNorth angleToDirection : ℝ)
    (perimeter : List LED) (distance : Option ℝ) : Data :=
  { id := idv
    angle := angle + angleToDirection + angleNorth
    distance := distance
    led := getLED color perimeter }

/-- Method `Data.adjustDistance`.  Mutation of `self.distance` is modelled by
returning the updated record together with the value the method returns.
`none` models the exceptions the correction branch can raise:
`AttributeError` when `led` was never assigned, `ZeroDivisionError` when
the stored distance is `0`, and `ValueError` from `math.asin` on an
argument outside `[-1, 1]`. -/
noncomputable def Data.adjustDistance (self : Data) (dist : ℝ) : Option (Data × ℝ) :=
  match self.distance with
  | none => some ({ self with distance := some dist }, dist)
  | some prev =>
    match self.led with
    | none => none
    | some led0 =>
      if prev = 0 then none
      else if 1 < |led0.height / prev| then none
      else
        let theta := Real.arcsin (led0.height / prev)
        let adjustedDist := Real.cos theta * prev
        some ({ self with distance := some ((adjustedDist + dist) / 2) },
              (adjustedDist + dist) / 2)

open Classical in
/-- The angle used by `getPos2Dist` to order its two intersection
points: `round(degrees(atan2(I.Y - P1.Y, I.X - P1.X)), PRECISION)`. -/
noncomputable def thetaFrom (P I : Point) : ℝ :=
  roundP CPRECISION (degrees (atan2 (I.Y - P.Y) (I.X - P.X)))

open Classical in
/-- The circle-intersection core of `compute.getPos2Dist` (the spec
calls it `intersectCircles`), acting on the two centers and radii read
from the `Data` pair. -/
noncomputable def intersectCircles (P1 : Point) (R1 : ℝ) (P2 : Point) (R2 : ℝ) : List Point :=
  let dx := P2.X - P1.X
  let dy := P2.Y - P1.Y
  let D := P1.distance P2
  if D > R1 + R2 then []
  else if D < |R2 - R1| then []
  else if D = 0 ∧ R1 = R2 then []
  else
    let chorddistance := (R1 ^ 2 - R2 ^ 2 + D ^ 2) / (2 * D)
    let halfchordlength := Real.sqrt (R1 ^ 2 - chorddistance ^ 2)
    let chordmidpointx := P1.X + chorddistance * dx / D
    let chordmidpointy := P1.Y + chorddistance * dy / D
    let I1 : Point := ⟨roundP CPRECISION (chordmidpointx + halfchordlength * dy / D),
                       roundP CPRECISION (chordmidpointy - halfchordlength * dx / D)⟩
    let theta1 := thetaFrom P1 I1
    let I2 : Point := ⟨roundP CPRECISION (chordmidpointx - halfchordlength * dy / D),
                       roundP CPRECISION (chordmidpointy + halfchordlength * dx / D)⟩
    let theta2 := thetaFrom P1 I2
    if D = R1 + R2 ∨ D = R1 - R2 then [I1]
    else if theta2 > theta1 then [I2, I1]
    else [I1, I2]

open Classical in
/-- Function `compute.getPos2Dist`: raises `ValueError('Incomplete datas')` when
either distance is unset (`none` here); reading `data.led.point` of a
half-built `Data` raises `AttributeError` (`none` here as well). -/
noncomputable def getPos2Dist (data1 data2 : Data) : Option (List Point) :=
  match data1.distance, data2.distance with
  | some R1, some R2 =>
    match data1.led, data2.led with
    | some led1, some led2 => some (intersectCircles led1.point R1 led2.point R2)
    | _, _ => none
  | _, _ => none

/-- Perimeter filter `compute.filterPoints`: keep the solutions contained in the polygon
of the perimeter-flagged landmarks.  `contains` models the external
`shapely` `polygon.contains` predicate (shapely is a third-party
library, not part of this repository); the final `map` mirrors the
shapely-point round-trip of the source. -/
def filterPoints (solutions : List Point) (corners : List LED)
    (contains : List (ℝ × ℝ) → Point → Bool) : List Point :=
  let coords := (corners.filter fun i => i.inPerimeter).map fun i => (i.point.X, i.point.Y)
  ((solutions.filter fun s => contains coords s).map fun p => (⟨p.X, p.Y⟩ : Point))

/-- The scanning loop of `compute.isAdjacent`: `count` counts the
elements from the first landmark matching one of the two colors
(inclusive) up to the second match (exclusive); the loop breaks at the
second match. -/
def adjacencyScan (color1 color2 : Color) : List LED → Bool → ℕ → ℕ
  | [], _, count => count
  | i :: rest, start, count =>
    if i.color = color1 ∨ i.color = color2 then
      if start then count
      else adjacencyScan color1 color2 rest true (count + 1)
    else if start then adjacencyScan color1 color2 rest start (count + 1)
    else adjacencyScan color1 color2 rest start count

/-- Adjacency test `compute.isAdjacent`. -/
def isAdjacent (color1 color2 : Color) (perimeter : List LED) : Bool :=
  if color1 = color2 then false
  else
    let count := adjacencyScan color1 color2 perimeter false 0
    count == 1 || count == perimeter.length

/-- The scanning loop of `compute.vectorFromColors`: like
`adjacencyScan` but also records whether the first matching landmark has
`led1`'s color.  (The source line `firstColInFirst = not
firstColorInFirst` assigns to a misspelled fresh local and has no
effect, so it is not part of the result.) -/
def colorOrderScan (color1 color2 : Color) : List LED → Bool → ℕ → Bool → ℕ × Bool
  | [], _, count, firstColorInFirst => (count, firstColorInFirst)
  | i :: rest, start, count, firstColorInFirst =>
    if i.color = color1 ∨ i.color = color2 then
      if start then (count, firstColorInFirst)
      else colorOrderScan color1 color2 rest true (count + 1) (i.color = color1)
    else if start then colorOrderScan color1 color2 rest start (count + 1) firstColorInFirst
    else colorOrderScan color1 color2 rest start count firstColorInFirst

/-- Function `compute.vectorFromColors`: the clockwise vector between two
landmarks of the perimeter; non-adjacent landmarks always give
`led2.point - led1.point`. -/
def vectorFromColors (led1 led2 : LED) (perimeter : List LED) : ℝ × ℝ :=
  if ¬ isAdjacent led1.color led2.color perimeter then led2.point.minus led1.point
  else
    let scan := colorOrderScan led1.color led2.color perimeter false 0 true
    if scan.2 then led2.point.minus led1.point
    else led1.point.minus led2.point

open Classical in
/-- Estimator `compute.distanceFromAngles`: derives the two landmark distances
from the two corrected sighting angles.  `none` models the
`AttributeError` on a half-built `Data` (missing `led`); the degenerate
`sin(diff) == 0` branch returns `(0, 0)` as the source does (printing
"oooops"). -/
noncomputable def distanceFromAngles (data1 data2 : Data) (dirInit : ℝ × ℝ)
    (angleNorth angleToDirection : ℝ) (perimeter : List LED) : Option (ℝ × ℝ) :=
  match data1.led, data2.led with
  | some led1, some led2 =>
    let vectNorth := rotateVector dirInit angleNorth
    let _actualVector := rotateVector vectNorth angleToDirection
    let vect1 := rotateVector dirInit data1.angle
    let vect2 := rotateVector dirInit data2.angle
    let vectIni := vectorFromColors led1 led2 perimeter
    let vectPerpendicular := rotateVector vectIni 90
    let angle1 := angleBetween2Vects vect1 vectPerpendicular
    let angle2 := angleBetween2Vects vect2 vectPerpendicular
    let t1 : Triangle := ⟨angle1, led1.point, led1.color, 0⟩
    let t2 : Triangle := ⟨angle2, led2.point, led2.color, 0⟩
    let triangle1 := if t1.angleP < t2.angleP then t2 else t1
    let triangle2 := if t1.angleP < t2.angleP then t1 else t2
    let distance := |triangle1.point.distance triangle2.point|
    if triangle1.angleP * triangle2.angleP < 0 then
      let x := distance / (1 + Real.tan (radians |triangle2.angleP|) /
        Real.tan (radians |triangle1.angleP|))
      let y := distance - x
      some (x / Real.sin (radians |triangle1.angleP|), y / Real.sin (radians |triangle2.angleP|))
    else
      let diff := radians (|triangle1.angleP| - |triangle2.angleP|)
      if Real.sin diff = 0 then some (0, 0)
      else some (distance * Real.cos (radians triangle2.angleP) / Real.sin diff,
                 distance * Real.cos (radians triangle1.angleP) / Real.sin diff)
  | _, _ => none

open Classical in
/-- Pipeline `compute.compute2Data`: estimator → distance fusion → circle
intersection → perimeter filter.  The in-place mutation of the two
`Data` objects is modelled by returning the updated records, and the
(never written) perimeter list is passed through, so the caller can
observe the whole final state. -/
noncomputable def compute2Data (data1 data2 : Data) (dirInit : ℝ × ℝ)
    (angleNorth angleToDirection : ℝ) (perimeter : List LED)
    (contains : List (ℝ × ℝ) → Point → Bool) :
    Option (Data × Data × List LED × List Point) :=
  match distanceFromAngles data1 data2 dirInit angleNorth angleToDirection perimeter with
  | none => none
  | some (dist1, dist2) =>
    match data1.adjustDistance dist1 with
    | none => none
    | some (data1prime, _) =>
      match data2.adjustDistance dist2 with
      | none => none
      | some (data2prime, _) =>
        match getPos2Dist data1prime data2prime with
        | none => none
        | some res => some (data1prime, data2prime, perimeter, filterPoints res perimeter contains)

open Classical

theorem roundP_int (p : ℕ) (x : ℝ) (n : ℤ) (h : x * 10 ^ p = (n : ℝ)) :
    roundP p x = x := by
  unfold roundP
  rw [h, round_intCast, ← h]
  have h10 : (10 : ℝ) ^ p ≠ 0 := by positivity
  field_simp

theorem roundP_mono (p : ℕ) {x y : ℝ} (h : x ≤ y) :
    roundP p x ≤ roundP p y := by
  unfold roundP
  have h10 : (0 : ℝ) < 10 ^ p := by positivity
  have hr : round (x * 10 ^ p) ≤ round (y * 10 ^ p) := by
    rw [round_eq, round_eq]
    exact Int.floor_le_floor (by nlinarith)
  gcongr

theorem roundP_zero (p : ℕ) : roundP p 0 = 0 := by
  unfold roundP
  simp

theorem roundP_nonneg (p : ℕ) {x : ℝ} (h : 0 ≤ x) : 0 ≤ roundP p x := by
  have := roundP_mono p h
  rwa [roundP_zero] at this

theorem roundP_abs_sub_le (p : ℕ) (x : ℝ) :
    |roundP p x - x| ≤ 1 / (2 * 10 ^ p) := by
  unfold roundP
  have h10 : (0 : ℝ) < 10 ^ p := by positivity
  have h1 : |(round (x * 10 ^ p) : ℝ) - x * 10 ^ p| ≤ 1 / 2 := by
    rw [abs_sub_comm]; exact abs_sub_round _
  have h2 : (round (x * 10 ^ p) : ℝ) / 10 ^ p - x
      = ((round (x * 10 ^ p) : ℝ) - x * 10 ^ p) / 10 ^ p := by
    field_simp
    ring
  rw [h2, abs_div, abs_of_pos h10, div_le_div_iff₀ h10 (by positivity)]
  nlinarith [h1]

theorem sqrt_eval {a b : ℝ} (hb : 0 ≤ b) (h : b ^ 2 = a) :
    Real.sqrt a = b := by
  rw [← h, Real.sqrt_sq hb]

theorem Point.distance_nonneg (p q : Point) : 0 ≤ p.distance q :=
  roundP_nonneg _ (Real.sqrt_nonneg _)

/-- C1 (counterexample): with the pooled points `(0,0)` and
`(0.09, 0.09)`, whose Euclidean distance exceeds `0.1`, the source's
resolver `sortData` keeps both points (its equality test is
per-coordinate, not Euclidean) and returns their mean, while the claim's
Euclidean-distance rule would retain nothing. -/
theorem sortData_euclid_cex :
    sortData [⟨0, 0⟩, ⟨0.09, 0.09⟩] = some ⟨0.045, 0.045⟩ ∧
    resolveClaim [⟨0, 0⟩, ⟨0.09, 0.09⟩] = none := by
  have haa : (Point.mk 0 0).approxEq ⟨0, 0⟩ := by
    unfold Point.approxEq pointThreshold
    norm_num
  have hbb : (Point.mk 0.09 0.09).approxEq ⟨0.09, 0.09⟩ := by
    unfold Point.approxEq pointThreshold
    norm_num
  have hab : (Point.mk 0 0).approxEq ⟨0.09, 0.09⟩ := by
    unfold Point.approxEq pointThreshold
    constructor <;> · rw [abs_lt]; norm_num
  have hba : (Point.mk 0.09 0.09).approxEq ⟨0, 0⟩ := by
    unfold Point.approxEq pointThreshold
    constructor <;> · rw [abs_lt]; norm_num
  have hm1 : hasManyOccurencies ⟨0, 0⟩ [⟨0, 0⟩, ⟨0.09, 0.09⟩] := by
    unfold hasManyOccurencies
    simp only [List.countP_cons, List.countP_nil, decide_eq_true haa,
      decide_eq_true hab, List.length_cons, List.length_nil]
    norm_num
  have hm2 : hasManyOccurencies ⟨0.09, 0.09⟩ [⟨0, 0⟩, ⟨0.09, 0.09⟩] := by
    unfold hasManyOccurencies
    simp only [List.countP_cons, List.countP_nil, decide_eq_true hba,
      decide_eq_true hbb, List.length_cons, List.length_nil]
    norm_num
  have he1 : ¬ euclidApproxEq ⟨0, 0⟩ ⟨0.09, 0.09⟩ := by
    unfold euclidApproxEq
    push_neg
    rw [show ((0 : ℝ) - 0.09) ^ 2 + ((0 : ℝ) - 0.09) ^ 2 = 0.0162 by norm_num,
      show (0.1 : ℝ) = 0.1 from rfl, Real.le_sqrt' (by norm_num)]
    norm_num
  have he2 : ¬ euclidApproxEq ⟨0.09, 0.09⟩ ⟨0, 0⟩ := by
    unfold euclidApproxEq
    push_neg
    rw [show ((0.09 : ℝ) - 0) ^ 2 + ((0.09 : ℝ) - 0) ^ 2 = 0.0162 by norm_num,
      Real.le_sqrt' (by norm_num)]
    norm_num
  have hs1 : euclidApproxEq ⟨0, 0⟩ ⟨0, 0⟩ := by
    unfold euclidApproxEq
    rw [show ((0 : ℝ) - 0) ^ 2 + ((0 : ℝ) - 0) ^ 2 = 0 by norm_num, Real.sqrt_zero]
    norm_num
  have hs2 : euclidApproxEq ⟨0.09, 0.09⟩ ⟨0.09, 0.09⟩ := by
    unfold euclidApproxEq
    rw [show ((0.09 : ℝ) - 0.09) ^ 2 + ((0.09 : ℝ) - 0.09) ^ 2 = 0 by norm_num,
      Real.sqrt_zero]
    norm_num
  constructor
  · unfold sortData
    simp only [List.filter_cons, List.filter_nil, decide_eq_true hm1,
      decide_eq_true hm2, if_true, List.length_cons, List.length_nil]
    norm_num [List.map, List.sum_cons, List.sum_nil]
  · unfold resolveClaim
    simp only [List.countP_cons, List.countP_nil, decide_eq_true hs1,
      decide_eq_true hs2, decide_eq_false he1, decide_eq_false he2,
      List.length_cons, List.length_nil, List.filter_cons, List.filter_nil]
    norm_num

/-- C1 (amended): for every non-empty list of pooled candidate points,
`sortData` retains exactly the points `p` such that the number of pooled
points approximately equal to `p` is at least 80% of the pool
(equivalently `4 * n ≤ 5 * count`), where two points are approximately
equal exactly when both coordinate differences are below `0.1` in
absolute value (per-coordinate, not Euclidean); whenever the retained
set is non-empty it returns the point whose coordinates are the
arithmetic means of the retained points' coordinates. -/
theorem sortData_consensus (l : List Point) (hl : l ≠ []) :
    (∀ p : Point,
      (p ∈ l.filter fun x => decide (hasManyOccurencies x l)) ↔
        p ∈ l ∧ 4 * l.length ≤ 5 * l.countP fun i => decide (p.approxEq i)) ∧
    ((l.filter fun x => decide (hasManyOccurencies x l)) ≠ [] →
      sortData l = some
        ⟨((l.filter fun x => decide (hasManyOccurencies x l)).map Point.X).sum /
            (l.filter fun x => decide (hasManyOccurencies x l)).length,
         ((l.filter fun x => decide (hasManyOccurencies x l)).map Point.Y).sum /
            (l.filter fun x => decide (hasManyOccurencies x l)).length⟩) := by
  have hlen : 0 < l.length := List.length_pos.mpr hl
  have hlenR : (0 : ℝ) < l.length := by exact_mod_cast hlen
  constructor
  · intro p
    rw [List.mem_filter, decide_eq_true_eq]
    constructor
    · rintro ⟨hp, hq⟩
      refine ⟨hp, ?_⟩
      unfold hasManyOccurencies at hq
      rw [ge_iff_le, le_div_iff₀ hlenR] at hq
      have : (80 : ℝ) * l.length ≤ (l.countP fun i => decide (p.approxEq i)) * 100 := by
        exact_mod_cast hq
      have hn : 80 * l.length ≤ (l.countP fun i => decide (p.approxEq i)) * 100 := by
        exact_mod_cast this
      omega
    · rintro ⟨hp, hq⟩
      refine ⟨hp, ?_⟩
      unfold hasManyOccurencies
      rw [ge_iff_le, le_div_iff₀ hlenR]
      have hn : 80 * l.length ≤ (l.countP fun i => decide (p.approxEq i)) * 100 := by
        omega
      exact_mod_cast hn
  · intro hne
    unfold sortData
    rw [if_neg (by rwa [ne_eq, ← List.length_eq_zero] at hne)]

/-- C1 (amended, witness): on the one-point pool `[(1, 2)]` the point
survives (frequency 100%) and `sortData` returns it as its own mean. -/
theorem sortData_consensus_witness :
    sortData [⟨1, 2⟩] = some ⟨1, 2⟩ := by
  have haa : (Point.mk 1 2).approxEq ⟨1, 2⟩ := by
    unfold Point.approxEq pointThreshold
    norm_num
  have hm : hasManyOccurencies ⟨1, 2⟩ [⟨1, 2⟩] := by
    unfold hasManyOccurencies
    simp only [List.countP_cons, List.countP_nil, decide_eq_true haa,
      List.length_cons, List.length_nil]
    norm_num
  have hfil : (List.filter (fun x => decide (hasManyOccurencies x [⟨1, 2⟩])) [(⟨1, 2⟩ : Point)])
      = [⟨1, 2⟩] := by
    simp only [List.filter_cons, List.filter_nil, decide_eq_true hm, if_true]
  have h := (sortData_consensus [⟨1, 2⟩] (by simp)).2 (by rw [hfil]; simp)
  rw [hfil] at h
  simpa using h

/-- C2: with the two scattered pooled points `(0,0)` and `(1,1)` neither
point reaches the 80% frequency bar; the retained list is empty and the
source divides by its length, raising `ZeroDivisionError` (modelled by
`none`) instead of returning a typed `NoConsensus` error. -/
theorem sortData_no_consensus_crash :
    sortData [⟨0, 0⟩, ⟨1, 1⟩] = none := by
  have haa : (Point.mk 0 0).approxEq ⟨0, 0⟩ := by
    unfold Point.approxEq pointThreshold
    norm_num
  have hbb : (Point.mk 1 1).approxEq ⟨1, 1⟩ := by
    unfold Point.approxEq pointThreshold
    norm_num
  have hab : ¬ (Point.mk 0 0).approxEq ⟨1, 1⟩ := by
    unfold Point.approxEq pointThreshold
    rintro ⟨h, -⟩
    rw [abs_lt] at h
    norm_num at h
  have hba : ¬ (Point.mk 1 1).approxEq ⟨0, 0⟩ := by
    unfold Point.approxEq pointThreshold
    rintro ⟨h, -⟩
    rw [abs_lt] at h
    norm_num at h
  have hm1 : ¬ hasManyOccurencies ⟨0, 0⟩ [⟨0, 0⟩, ⟨1, 1⟩] := by
    unfold hasManyOccurencies
    simp only [List.countP_cons, List.countP_nil, decide_eq_true haa,
      decide_eq_false hab, List.length_cons, List.length_nil]
    norm_num
  have hm2 : ¬ hasManyOccurencies ⟨1, 1⟩ [⟨0, 0⟩, ⟨1, 1⟩] := by
    unfold hasManyOccurencies
    simp only [List.countP_cons, List.countP_nil, decide_eq_true hbb,
      decide_eq_false hba, List.length_cons, List.length_nil]
    norm_num
  unfold sortData
  simp only [List.filter_cons, List.filter_nil, decide_eq_false hm1,
    decide_eq_false hm2]
  norm_num

/-- C3: constructing a sighting with a color absent from the perimeter
list does not surface the lookup failure: `_getLED` raises (`none`
here), but `Data.__init__` swallows the error and yields a partially
constructed object whose `led` attribute is unset, instead of
propagating a `LandmarkNotFound` error to the caller. -/
theorem dataInit_swallows_missing_color :
    getLED Color.green [{ color := Color.red, point := ⟨0, 0⟩ }] = none ∧
    (Data.init 0 Color.green 10 0 0
        [{ color := Color.red, point := ⟨0, 0⟩ }] none).led = none ∧
    (Data.init 0 Color.green 10 0 0
        [{ color := Color.red, point := ⟨0, 0⟩ }] none).angle = 10 + 0 + 0 := by
  refine ⟨rfl, rfl, rfl⟩

/-- C7 (counterexample): a sighting with prior distance `0` and height
offset `0` makes `adjustDistance` evaluate `0.0 / 0.0` inside
`math.asin`, raising `ZeroDivisionError` (modelled `none`) instead of
returning the arithmetic mean `(0 + 7) / 2`. -/
theorem adjustDistance_zero_prior_cex :
    Data.adjustDistance
      { id := 0, angle := 0, distance := some 0,
        led := some { color := Color.red, point := ⟨0, 0⟩ } } 7 = none := by
  unfold Data.adjustDistance
  norm_num

/-- C7 (amended): with no stored distance `adjustDistance` stores and
returns exactly the new measurement; with a non-zero stored distance and
a zero landmark height offset it stores and returns the arithmetic mean
of the stored and new distances. -/
theorem adjustDistance_spec (self : Data) (dist prev : ℝ) (led0 : LED) :
    (self.distance = none →
      self.adjustDistance dist = some ({ self with distance := some dist }, dist)) ∧
    (self.distance = some prev → prev ≠ 0 → self.led = some led0 → led0.height = 0 →
      self.adjustDistance dist =
        some ({ self with distance := some ((prev + dist) / 2) }, (prev + dist) / 2)) := by
  constructor
  · intro h
    unfold Data.adjustDistance
    rw [h]
  · intro h hprev hled hh
    unfold Data.adjustDistance
    rw [h, hled]
    dsimp only
    rw [if_neg hprev, hh, zero_div, if_neg (by rw [abs_zero]; norm_num),
      Real.arcsin_zero, Real.cos_zero, one_mul]

/-- C7 (amended, witness): concrete runs of both branches: distance
unset stores `7`; prior distance `3` with height offset `0` yields the
mean `5`. -/
theorem adjustDistance_spec_witness :
    Data.adjustDistance
        { id := 0, angle := 0, distance := none,
          led := some { color := Color.red, point := ⟨0, 0⟩ } } 7 =
      some ({ id := 0, angle := 0, distance := some 7,
              led := some { color := Color.red, point := ⟨0, 0⟩ } }, 7) ∧
    Data.adjustDistance
        { id := 1, angle := 0, distance := some 3,
          led := some { color := Color.red, point := ⟨0, 0⟩ } } 7 =
      some ({ id := 1, angle := 0, distance := some 5,
              led := some { color := Color.red, point := ⟨0, 0⟩ } }, 5) := by
  constructor
  · exact (adjustDistance_spec _ 7 0 { color := Color.red, point := ⟨0, 0⟩ }).1 rfl
  · have h := (adjustDistance_spec
      { id := 1, angle := 0, distance := some 3,
        led := some { color := Color.red, point := ⟨0, 0⟩ } }
      7 3 { color := Color.red, point := ⟨0, 0⟩ }).2 rfl (by norm_num) rfl rfl
    have h5 : ((3 : ℝ) + 7) / 2 = 5 := by norm_num
    rw [h5] at h
    exact h

theorem Point.distance_eval (p q : Point) (d : ℝ) (n : ℤ) (hd : 0 ≤ d)
    (h : d ^ 2 = (p.X - q.X) ^ 2 + (p.Y - q.Y) ^ 2) (hn : d * 10 ^ (3 : ℕ) = (n : ℝ)) :
    p.distance q = d := by
  unfold Point.distance GPRECISION
  rw [sqrt_eval hd h]
  exact roundP_int 3 d n hn

theorem degrees_mono {a b : ℝ} (h : a ≤ b) : degrees a ≤ degrees b := by
  unfold degrees
  have hp := Real.pi_pos
  gcongr

/-- C4: the circle-intersection solver returns an empty list exactly
when the center distance `D` (as the program computes it,
`P1.distance(P2)`) exceeds `R1 + R2`, is below `|R1 - R2|`, or is `0`
with `R1 = R2`; in every other case it returns one or two points. -/
theorem getPos2Dist_empty_iff (P1 P2 : Point) (R1 R2 : ℝ) :
    (intersectCircles P1 R1 P2 R2 = [] ↔
      P1.distance P2 > R1 + R2 ∨ P1.distance P2 < |R1 - R2| ∨
        (P1.distance P2 = 0 ∧ R1 = R2)) ∧
    (¬(P1.distance P2 > R1 + R2 ∨ P1.distance P2 < |R1 - R2| ∨
        (P1.distance P2 = 0 ∧ R1 = R2)) →
      (intersectCircles P1 R1 P2 R2).length = 1 ∨
        (intersectCircles P1 R1 P2 R2).length = 2) := by
  have habs : |R1 - R2| = |R2 - R1| := abs_sub_comm _ _
  have key : ¬ P1.distance P2 > R1 + R2 → ¬ P1.distance P2 < |R2 - R1| →
      ¬ (P1.distance P2 = 0 ∧ R1 = R2) →
      (intersectCircles P1 R1 P2 R2).length = 1 ∨
        (intersectCircles P1 R1 P2 R2).length = 2 := by
    intro h1 h2 h3
    unfold intersectCircles
    dsimp only
    rw [if_neg h1, if_neg h2, if_neg h3]
    split
    · exact Or.inl rfl
    split
    · exact Or.inr rfl
    · exact Or.inr rfl
  constructor
  · constructor
    · intro h
      by_cases h1 : P1.distance P2 > R1 + R2
      · exact Or.inl h1
      by_cases h2 : P1.distance P2 < |R2 - R1|
      · rw [habs]
        exact Or.inr (Or.inl h2)
      by_cases h3 : P1.distance P2 = 0 ∧ R1 = R2
      · exact Or.inr (Or.inr h3)
      · rcases key h1 h2 h3 with hk | hk <;> rw [h] at hk <;> simp at hk
    · intro h
      unfold intersectCircles
      dsimp only
      by_cases h1 : P1.distance P2 > R1 + R2
      · rw [if_pos h1]
      rw [if_neg h1]
      by_cases h2 : P1.distance P2 < |R2 - R1|
      · rw [if_pos h2]
      rw [if_neg h2]
      rcases h with hh | hh | hh
      · exact absurd hh h1
      · rw [habs] at hh
        exact absurd hh h2
      · rw [if_pos hh]
  · intro hn
    have h1 : ¬ P1.distance P2 > R1 + R2 := fun hc => hn (Or.inl hc)
    have h2 : ¬ P1.distance P2 < |R2 - R1| := fun hc =>
      hn (Or.inr (Or.inl (by rw [habs]; exact hc)))
    have h3 : ¬ (P1.distance P2 = 0 ∧ R1 = R2) := fun hc => hn (Or.inr (Or.inr hc))
    exact key h1 h2 h3

/-- C4 (witness): two circles of radius `1` with centers `10` apart are
disjoint (`D = 10 > 1 + 1`), so the solver returns the empty list. -/
theorem getPos2Dist_empty_iff_witness :
    intersectCircles ⟨0, 0⟩ 1 ⟨10, 0⟩ 1 = [] := by
  have hD : Point.distance (⟨0, 0⟩ : Point) ⟨10, 0⟩ = 10 :=
    Point.distance_eval _ _ 10 10000 (by norm_num) (by norm_num) (by norm_num)
  exact (getPos2Dist_empty_iff ⟨0, 0⟩ ⟨10, 0⟩ 1 1).1.mpr (Or.inl (by rw [hD]; norm_num))

/-- C5 (counterexample): two coincident equal circles satisfy the
claim's tangency condition `D == R1 - R2` literally (`0 = 1 - 1`), yet
the solver returns the empty list, not exactly one point. -/
theorem intersectCircles_coincident_cex :
    Point.distance ⟨0, 0⟩ ⟨0, 0⟩ = 1 - 1 ∧
    intersectCircles ⟨0, 0⟩ 1 ⟨0, 0⟩ 1 = [] := by
  have hD : Point.distance (⟨0, 0⟩ : Point) ⟨0, 0⟩ = 0 :=
    Point.distance_eval _ _ 0 0 le_rfl (by norm_num) (by norm_num)
  have hg1 : ¬ ((0 : ℝ) > 1 + 1) := by norm_num
  have hg2 : ¬ ((0 : ℝ) < |1 - 1|) := by
    rw [show |(1 : ℝ) - 1| = 0 by rw [sub_self, abs_zero]]
    exact lt_irrefl 0
  refine ⟨by rw [hD]; norm_num, ?_⟩
  unfold intersectCircles
  dsimp only
  rw [hD, if_neg hg1, if_neg hg2, if_pos ⟨rfl, rfl⟩]

/-- C5 (amended): for circles with non-negative radii whose center
distance `D` (as the program computes it) satisfies `D = R1 + R2` or
`D = R1 - R2`, excluding the coincident case `D = 0 ∧ R1 = R2`, the
solver returns exactly one point; in particular with centers `10` apart
and radii `5` and `5` it returns exactly the single point `(5, 0)`. -/
theorem intersectCircles_tangent :
    (∀ (P1 P2 : Point) (R1 R2 : ℝ), 0 ≤ R1 → 0 ≤ R2 →
      (P1.distance P2 = R1 + R2 ∨ P1.distance P2 = R1 - R2) →
      ¬(P1.distance P2 = 0 ∧ R1 = R2) →
      (intersectCircles P1 R1 P2 R2).length = 1) ∧
    intersectCircles ⟨0, 0⟩ 5 ⟨10, 0⟩ 5 = [⟨5, 0⟩] := by
  constructor
  · intro P1 P2 R1 R2 hR1 hR2 ht hnc
    have hD0 : 0 ≤ P1.distance P2 := Point.distance_nonneg _ _
    have h1 : ¬ P1.distance P2 > R1 + R2 := by
      rcases ht with h | h <;> rw [h]
      · exact lt_irrefl _
      · intro hc
        nlinarith
    have h2 : ¬ P1.distance P2 < |R2 - R1| := by
      rcases ht with h | h <;> rw [h] at hD0 ⊢ <;>
        rcases abs_cases (R2 - R1) with ⟨ha, -⟩ | ⟨ha, -⟩ <;> rw [ha] <;>
          intro hc <;> nlinarith
    unfold intersectCircles
    dsimp only
    rw [if_neg h1, if_neg h2, if_neg hnc, if_pos ht]
    rfl
  · have hD : Point.distance (⟨0, 0⟩ : Point) ⟨10, 0⟩ = 10 :=
      Point.distance_eval _ _ 10 10000 (by norm_num) (by norm_num) (by norm_num)
    have hs : Real.sqrt ((5 : ℝ) ^ 2 - ((5 ^ 2 - 5 ^ 2 + 10 ^ 2) / (2 * 10)) ^ 2) = 0 := by
      rw [show (5 : ℝ) ^ 2 - ((5 ^ 2 - 5 ^ 2 + 10 ^ 2) / (2 * 10)) ^ 2 = 0 by norm_num]
      exact Real.sqrt_zero
    have r1 : roundP CPRECISION (5 : ℝ) = 5 :=
      roundP_int _ _ 50000 (by norm_num [CPRECISION])
    have r2 : roundP CPRECISION (0 : ℝ) = 0 := roundP_zero _
    unfold intersectCircles
    dsimp only
    rw [hD]
    norm_num [hs, r1, r2, Point.mk.injEq]

/-- C5 (amended, witness): the tangency theorem applied to the concrete
scenario circles (centers `10` apart, radii `5` and `5`). -/
theorem intersectCircles_tangent_witness :
    (intersectCircles ⟨0, 0⟩ 5 ⟨10, 0⟩ 5).length = 1 := by
  have hD : Point.distance (⟨0, 0⟩ : Point) ⟨10, 0⟩ = 10 :=
    Point.distance_eval _ _ 10 10000 (by norm_num) (by norm_num) (by norm_num)
  refine intersectCircles_tangent.1 ⟨0, 0⟩ ⟨10, 0⟩ 5 5 (by norm_num) (by norm_num)
    (Or.inl (by rw [hD]; norm_num)) ?_
  rw [hD]
  rintro ⟨hc, -⟩
  norm_num at hc

/-- C6: whenever the circle-intersection solver returns two points, the
first point's rounded `atan2` angle measured from the first circle's
center is at least the second point's, so the output order is
deterministic. -/
theorem getPos2Dist_ordered (P1 P2 : Point) (R1 R2 : ℝ) (A B : Point)
    (h : intersectCircles P1 R1 P2 R2 = [A, B]) :
    thetaFrom P1 A ≥ thetaFrom P1 B := by
  unfold intersectCircles at h
  dsimp only at h
  split at h
  · simp at h
  split at h
  · simp at h
  split at h
  · simp at h
  split at h
  · simp at h
  split at h
  next h5 =>
    simp only [List.cons.injEq, and_true] at h
    obtain ⟨h6, h7⟩ := h
    rw [← h6, ← h7]
    exact le_of_lt h5
  next h5 =>
    simp only [List.cons.injEq, and_true] at h
    obtain ⟨h6, h7⟩ := h
    rw [← h6, ← h7]
    exact not_lt.mp h5

/-- C6 (witness): circles of radius `5` around `(0,0)` and `(-6,0)`
intersect in `(-3, 4)` and `(-3, -4)`, returned in that (descending
angle) order. -/
theorem getPos2Dist_ordered_witness :
    intersectCircles ⟨0, 0⟩ 5 ⟨-6, 0⟩ 5 = [⟨-3, 4⟩, ⟨-3, -4⟩] ∧
    thetaFrom ⟨0, 0⟩ ⟨-3, 4⟩ ≥ thetaFrom ⟨0, 0⟩ ⟨-3, -4⟩ := by
  have hD : Point.distance (⟨0, 0⟩ : Point) ⟨-6, 0⟩ = 6 :=
    Point.distance_eval _ _ 6 6000 (by norm_num) (by norm_num) (by norm_num)
  have hs : Real.sqrt (16 : ℝ) = 4 := sqrt_eval (by norm_num) (by norm_num)
  have r1 : roundP CPRECISION (-3 : ℝ) = -3 :=
    roundP_int _ _ (-30000) (by norm_num [CPRECISION])
  have r2 : roundP CPRECISION (4 : ℝ) = 4 :=
    roundP_int _ _ 40000 (by norm_num [CPRECISION])
  have r3 : roundP CPRECISION (-4 : ℝ) = -4 :=
    roundP_int _ _ (-40000) (by norm_num [CPRECISION])
  have hth : ¬ (thetaFrom ⟨0, 0⟩ ⟨-3, -4⟩ > thetaFrom ⟨0, 0⟩ ⟨-3, 4⟩) := by
    apply not_lt.mpr
    unfold thetaFrom
    apply roundP_mono
    apply degrees_mono
    unfold atan2
    show Complex.arg ⟨(-3 : ℝ) - 0, (-4 : ℝ) - 0⟩ ≤ Complex.arg ⟨(-3 : ℝ) - 0, (4 : ℝ) - 0⟩
    have h1 : Complex.arg ⟨(-3 : ℝ) - 0, (-4 : ℝ) - 0⟩ < 0 :=
      Complex.arg_neg_iff.mpr (show ((-4 : ℝ) - 0) < 0 by norm_num)
    have h2 : (0 : ℝ) ≤ Complex.arg ⟨(-3 : ℝ) - 0, (4 : ℝ) - 0⟩ :=
      Complex.arg_nonneg_iff.mpr (show (0 : ℝ) ≤ (4 : ℝ) - 0 by norm_num)
    linarith
  have heq : intersectCircles ⟨0, 0⟩ 5 ⟨-6, 0⟩ 5 = [⟨-3, 4⟩, ⟨-3, -4⟩] := by
    unfold intersectCircles
    dsimp only
    rw [hD]
    norm_num [hs, r1, r2, r3, Point.mk.injEq, hth]
  exact ⟨heq, getPos2Dist_ordered ⟨0, 0⟩ ⟨-6, 0⟩ 5 5 _ _ heq⟩

/-- C8: rotating a vector by `0` degrees or by `360` degrees yields the
vector itself up to the fixed 3-decimal rounding: the result is exactly
the coordinatewise-rounded input, and each rounded coordinate differs
from the original by at most `1/2000`. -/
theorem rotateVector_full_turn (v : ℝ × ℝ) :
    rotateVector v 0 = (roundP GPRECISION v.1, roundP GPRECISION v.2) ∧
    rotateVector v 360 = (roundP GPRECISION v.1, roundP GPRECISION v.2) ∧
    |roundP GPRECISION v.1 - v.1| ≤ 1 / 2000 ∧
    |roundP GPRECISION v.2 - v.2| ≤ 1 / 2000 := by
  have h0 : radians 0 = 0 := by
    unfold radians
    ring
  have h360 : radians 360 = 2 * Real.pi := by
    unfold radians
    ring
  have hb1 := roundP_abs_sub_le GPRECISION v.1
  have hb2 := roundP_abs_sub_le GPRECISION v.2
  rw [show (1 : ℝ) / (2 * 10 ^ GPRECISION) = 1 / 2000 by norm_num [GPRECISION]] at hb1 hb2
  refine ⟨?_, ?_, hb1, hb2⟩
  · unfold rotateVector
    rw [h0, Real.cos_zero, Real.sin_zero]
    simp only [mul_one, mul_zero, add_zero, sub_zero]
  · unfold rotateVector
    rw [h360, Real.cos_two_pi, Real.sin_two_pi]
    simp only [mul_one, mul_zero, add_zero, sub_zero]

/-- C10: for two landmarks whose colors are not adjacent in the
perimeter list, `vectorFromColors` returns exactly
`led2.point - led1.point`, unconditionally; the orientation selection
only happens in the adjacent branch. -/
theorem vectorFromColors_not_adjacent (led1 led2 : LED) (perimeter : List LED)
    (h : isAdjacent led1.color led2.color perimeter = false) :
    vectorFromColors led1 led2 perimeter = led2.point.minus led1.point := by
  unfold vectorFromColors
  rw [if_pos]
  simp [h]

/-- C10 (witness): in the square perimeter red, green, blue, yellow the
colors red and blue are not adjacent, and the vector is
`blue.point - red.point = (10, 10)`. -/
theorem vectorFromColors_not_adjacent_witness :
    vectorFromColors ⟨Color.red, ⟨0, 0⟩, true, 0⟩ ⟨Color.blue, ⟨10, 10⟩, true, 0⟩
      [⟨Color.red, ⟨0, 0⟩, true, 0⟩, ⟨Color.green, ⟨10, 0⟩, true, 0⟩,
       ⟨Color.blue, ⟨10, 10⟩, true, 0⟩, ⟨Color.yellow, ⟨0, 10⟩, true, 0⟩] =
      (10 - 0, 10 - 0) := by
  rw [vectorFromColors_not_adjacent _ _ _ (by rfl)]
  rfl

theorem Data.adjustDistance_frame (self : Data) (dist : ℝ) (d : Data) (r : ℝ)
    (h : self.adjustDistance dist = some (d, r)) :
    d.id = self.id ∧ d.angle = self.angle ∧ d.led = self.led := by
  unfold Data.adjustDistance at h
  rcases hd : self.distance with - | prev <;> rw [hd] at h
  · dsimp only at h
    simp only [Option.some.injEq, Prod.mk.injEq] at h
    obtain ⟨hdata, -⟩ := h
    rw [← hdata]
    exact ⟨rfl, rfl, rfl⟩
  · rcases hl : self.led with - | led0 <;> rw [hl] at h
    · exact absurd h (by simp)
    · dsimp only at h
      split at h
      · exact absurd h (by simp)
      split at h
      · exact absurd h (by simp)
      · simp only [Option.some.injEq, Prod.mk.injEq] at h
        obtain ⟨hdata, -⟩ := h
        rw [← hdata]
        exact ⟨rfl, rfl, rfl⟩

/-- C9: whatever `compute2Data` returns, the two sightings' `id`,
corrected `angle` and landmark reference are unchanged, and the
perimeter list (hence every landmark in it, with its color, position,
perimeter flag and height) is returned untouched: only the `distance`
fields are updated. -/
theorem compute2Data_frame (data1 data2 : Data) (dirInit : ℝ × ℝ)
    (angleNorth angleToDirection : ℝ) (perimeter : List LED)
    (contains : List (ℝ × ℝ) → Point → Bool)
    (d1 d2 : Data) (perimOut : List LED) (pts : List Point)
    (h : compute2Data data1 data2 dirInit angleNorth angleToDirection perimeter contains =
      some (d1, d2, perimOut, pts)) :
    d1.id = data1.id ∧ d1.angle = data1.angle ∧ d1.led = data1.led ∧
    d2.id = data2.id ∧ d2.angle = data2.angle ∧ d2.led = data2.led ∧
    perimOut = perimeter := by
  unfold compute2Data at h
  rcases hda : distanceFromAngles data1 data2 dirInit angleNorth angleToDirection perimeter
    with - | dists <;> rw [hda] at h
  · exact absurd h (by simp)
  obtain ⟨dist1, dist2⟩ := dists
  dsimp only at h
  rcases h1 : data1.adjustDistance dist1 with - | p1 <;> rw [h1] at h
  · exact absurd h (by simp)
  obtain ⟨d1p, r1⟩ := p1
  dsimp only at h
  rcases h2 : data2.adjustDistance dist2 with - | p2 <;> rw [h2] at h
  · exact absurd h (by simp)
  obtain ⟨d2p, r2⟩ := p2
  dsimp only at h
  rcases h3 : getPos2Dist d1p d2p with - | res <;> rw [h3] at h
  · exact absurd h (by simp)
  dsimp only at h
  simp only [Option.some.injEq, Prod.mk.injEq] at h
  obtain ⟨hh1, hh2, hh3, -⟩ := h
  obtain ⟨f1, f2, f3⟩ := Data.adjustDistance_frame _ _ _ _ h1
  obtain ⟨g1, g2, g3⟩ := Data.adjustDistance_frame _ _ _ _ h2
  exact ⟨hh1 ▸ f1, hh1 ▸ f2, hh1 ▸ f3, hh2 ▸ g1, hh2 ▸ g2, hh2 ▸ g3, hh3.symm⟩

/-- C9 (witness): a full run of `compute2Data` on two sightings of the
adjacent landmarks red `(0,0)` and green `(0,1)` (both angles `0`,
heading offsets `0`): the estimator hits its degenerate branch and
returns distances `(0, 0)`, the circles are disjoint, and the run
completes with both sightings updated only in `distance`. -/
theorem compute2Data_frame_witness :
    compute2Data ⟨0, 0, none, some ⟨Color.red, ⟨0, 0⟩, true, 0⟩⟩
        ⟨1, 0, none, some ⟨Color.green, ⟨0, 1⟩, true, 0⟩⟩ (1, 0) 0 0
        [⟨Color.red, ⟨0, 0⟩, true, 0⟩, ⟨Color.green, ⟨0, 1⟩, true, 0⟩]
        (fun _ _ => false) =
      some (⟨0, 0, some 0, some ⟨Color.red, ⟨0, 0⟩, true, 0⟩⟩,
            ⟨1, 0, some 0, some ⟨Color.green, ⟨0, 1⟩, true, 0⟩⟩,
            [⟨Color.red, ⟨0, 0⟩, true, 0⟩, ⟨Color.green, ⟨0, 1⟩, true, 0⟩], []) ∧
    ((⟨0, 0, some 0, some ⟨Color.red, ⟨0, 0⟩, true, 0⟩⟩ : Data).id =
        (⟨0, 0, none, some ⟨Color.red, ⟨0, 0⟩, true, 0⟩⟩ : Data).id ∧
      (⟨0, 0, some 0, some ⟨Color.red, ⟨0, 0⟩, true, 0⟩⟩ : Data).led =
        (⟨0, 0, none, some ⟨Color.red, ⟨0, 0⟩, true, 0⟩⟩ : Data).led) := by
  have r1 : roundP GPRECISION (1 : ℝ) = 1 := roundP_int _ _ 1000 (by norm_num [GPRECISION])
  have rz : roundP GPRECISION (0 : ℝ) = 0 := roundP_zero _
  have hrad0 : radians 0 = 0 := by
    unfold radians
    ring
  have hrot0 : rotateVector (1, 0) 0 = (1, 0) := by
    unfold rotateVector
    dsimp only
    rw [hrad0, Real.cos_zero, Real.sin_zero]
    norm_num [r1, rz, Prod.mk.injEq]
  have hvfc : vectorFromColors ⟨Color.red, ⟨0, 0⟩, true, 0⟩ ⟨Color.green, ⟨0, 1⟩, true, 0⟩
      [⟨Color.red, ⟨0, 0⟩, true, 0⟩, ⟨Color.green, ⟨0, 1⟩, true, 0⟩] = (0 - 0, 1 - 0) := rfl
  have hperp : rotateVector (0 - 0, 1 - 0) 90 = (1, 0) := by
    unfold rotateVector
    dsimp only
    rw [show radians 90 = Real.pi / 2 by unfold radians; ring,
      Real.cos_pi_div_two, Real.sin_pi_div_two]
    norm_num [r1, rz, Prod.mk.injEq]
  have hab : angleBetween2Vects (1, 0) (1, 0) = 0 := by
    unfold angleBetween2Vects
    rw [sub_self, show degrees 0 = 0 by unfold degrees; rw [zero_mul, zero_div]]
    exact roundP_zero _
  have hD01 : Point.distance (⟨0, 0⟩ : Point) ⟨0, 1⟩ = 1 :=
    Point.distance_eval _ _ 1 1000 (by norm_num) (by norm_num) (by norm_num)
  have hdfa : distanceFromAngles ⟨0, 0, none, some ⟨Color.red, ⟨0, 0⟩, true, 0⟩⟩
      ⟨1, 0, none, some ⟨Color.green, ⟨0, 1⟩, true, 0⟩⟩ (1, 0) 0 0
      [⟨Color.red, ⟨0, 0⟩, true, 0⟩, ⟨Color.green, ⟨0, 1⟩, true, 0⟩] = some (0, 0) := by
    unfold distanceFromAngles
    dsimp only
    rw [hvfc, hrot0, hperp, hab]
    simp only [if_neg (lt_irrefl (0 : ℝ))]
    rw [hD01]
    rw [if_neg (by norm_num : ¬ ((0 : ℝ) * 0 < 0))]
    rw [show |(0 : ℝ)| - |(0 : ℝ)| = 0 by simp, hrad0, Real.sin_zero, if_pos rfl]
  have hic : intersectCircles ⟨0, 0⟩ 0 ⟨0, 1⟩ 0 = [] := by
    unfold intersectCircles
    dsimp only
    rw [hD01, if_pos (by norm_num : (1 : ℝ) > 0 + 0)]
  have hgp : getPos2Dist ⟨0, 0, some 0, some ⟨Color.red, ⟨0, 0⟩, true, 0⟩⟩
      ⟨1, 0, some 0, some ⟨Color.green, ⟨0, 1⟩, true, 0⟩⟩ = some [] := by
    unfold getPos2Dist
    dsimp only
    rw [hic]
  have heval : compute2Data ⟨0, 0, none, some ⟨Color.red, ⟨0, 0⟩, true, 0⟩⟩
      ⟨1, 0, none, some ⟨Color.green, ⟨0, 1⟩, true, 0⟩⟩ (1, 0) 0 0
      [⟨Color.red, ⟨0, 0⟩, true, 0⟩, ⟨Color.green, ⟨0, 1⟩, true, 0⟩]
      (fun _ _ => false) =
      some (⟨0, 0, some 0, some ⟨Color.red, ⟨0, 0⟩, true, 0⟩⟩,
            ⟨1, 0, some 0, some ⟨Color.green, ⟨0, 1⟩, true, 0⟩⟩,
            [⟨Color.red, ⟨0, 0⟩, true, 0⟩, ⟨Color.green, ⟨0, 1⟩, true, 0⟩], []) := by
    unfold compute2Data
    rw [hdfa]
    dsimp only [Data.adjustDistance]
    rw [hgp]
    rfl
  exact ⟨heval, ⟨(compute2Data_frame _ _ _ _ _ _ _ _ _ _ _ heval).1,
    (compute2Data_frame _ _ _ _ _ _ _ _ _ _ _ heval).2.2.1⟩⟩

end Pleeplee
